import Mathlib

/-!
Verification of the echoDialy diary application.

This file gives a shallow embedding of the storage module
(src/src/storage/index.ts), the Gemini API client harness, and the prompt
experiment subsystem, and proves properties of the embedded operations.

Modelling conventions:
  * TypeScript optional fields become Option in Lean; a JavaScript falsy
    check on a string-typed field tests both absence and the empty string.
  * Impure inputs (the clock, the file contents, the remote API outcomes)
    are passed as explicit parameters.
  * Persistence is modelled by returning the storage value that the
    operation writes to disk (or the unchanged input when no write occurs).
-/

namespace EchoDialy

/-- One diary record (interface DiaryEntry). -/
structure DiaryEntry where
  id : String
  date : String
  audioText : String
  imagePath : String
  prompt : String
  createdAt : String
  updatedAt : Option String := none
  style : Option String := none
  mood : Option String := none
deriving DecidableEq

/-- The persisted collection (interface DiaryStorage). -/
structure DiaryStorage where
  version : String
  diaries : List DiaryEntry
  lastModified : String
deriving DecidableEq

/-- const STORAGE_VERSION = '1.0.0' -/
def STORAGE_VERSION : String := "1.0.0"

/-- createEmptyStorage(): fresh storage with the version stamp, no diaries,
and the current timestamp (the clock value is the explicit `now`). -/
def createEmptyStorage (now : String) : DiaryStorage :=
  ⟨STORAGE_VERSION, [], now⟩

/-- The `diaries` field of a parsed storage file as seen by the check
`!storage.diaries || !Array.isArray(storage.diaries)`: either absent/falsy,
present but not an array, or an actual array of entries. -/
inductive DiariesField where
  | missing
  | notArray
  | arr (entries : List DiaryEntry)
deriving DecidableEq

/-- A storage file that parsed as JSON, before the structure validation. -/
structure RawStorage where
  version : String
  diaries : DiariesField
  lastModified : String
deriving DecidableEq

/-- loadDiaries: reads the backing file. The file-system read is modelled by
`input`: `none` is the ENOENT case (file absent), `some raw` is a file whose
contents parsed as JSON. An absent file yields a fresh empty storage; a
parsed file whose diaries field is missing or not an array raises. -/
def loadDiaries (input : Option RawStorage) (now : String) :
    Except String DiaryStorage :=
  match input with
  | none => .ok (createEmptyStorage now)
  | some raw =>
    match raw.diaries with
    | .arr entries => .ok ⟨raw.version, entries, raw.lastModified⟩
    | _ => .error "Invalid storage format: missing or invalid \"diaries\" array"

/-- Remove the first entry whose id matches (diaries.findIndex + splice);
`none` when no entry matches. -/
def removeFirstById (id : String) : List DiaryEntry → Option (List DiaryEntry)
  | [] => none
  | e :: rest =>
    if e.id = id then some rest
    else (removeFirstById id rest).map (e :: ·)

/-- deleteDiary: removes by id if present and persists (writeStorage stamps
lastModified with the current time `now`); returns the on-disk storage after
the operation and whether a removal occurred. When the id is absent no write
happens and the storage is returned unchanged. -/
def deleteDiary (storage : DiaryStorage) (id : String) (now : String) :
    DiaryStorage × Bool :=
  match removeFirstById id storage.diaries with
  | none => (storage, false)
  | some rest => (⟨storage.version, rest, now⟩, true)

/-- A Partial DiaryEntry: every field optional. -/
structure PartialDiaryEntry where
  id : Option String := none
  date : Option String := none
  audioText : Option String := none
  imagePath : Option String := none
  prompt : Option String := none
  createdAt : Option String := none
  updatedAt : Option String := none
  style : Option String := none
  mood : Option String := none
deriving DecidableEq

/-- The regex /^\d\x7b4\x7d-\d\x7b2\x7d-\d\x7b2\x7d$/ applied to a string:
four digits, a hyphen, two digits, a hyphen, two digits. -/
def isDateFormat (s : String) : Bool :=
  match s.toList with
  | [y1, y2, y3, y4, h1, m1, m2, h2, d1, d2] =>
    y1.isDigit && y2.isDigit && y3.isDigit && y4.isDigit && h1 = '-' &&
    m1.isDigit && m2.isDigit && h2 = '-' && d1.isDigit && d2.isDigit
  | _ => false

/-- A string-typed optional field read under a JavaScript falsy check
followed by a trimmed-emptiness check (s.trim().length === 0 holds exactly
when every character of s is whitespace): absent (undefined) and the empty
string both fail, as does a whitespace-only string. -/
def presentNonBlank (v : Option String) : Bool :=
  match v with
  | none => false
  | some s => !(s.toList.all Char.isWhitespace)

/-- validateEntry(entry: Partial DiaryEntry): throws on the first violated
requirement, in source order (audioText, imagePath, prompt, date). -/
def validateEntry (entry : PartialDiaryEntry) : Except String Unit :=
  if !presentNonBlank entry.audioText then
    .error "audioText is required and cannot be empty"
  else if !presentNonBlank entry.imagePath then
    .error "imagePath is required and cannot be empty"
  else if !presentNonBlank entry.prompt then
    .error "prompt is required and cannot be empty"
  else if !(match entry.date with | none => false | some d => isDateFormat d) then
    .error "date must be in YYYY-MM-DD format"
  else .ok ()

/-- The merged record built by updateDiary: spread the updates over the
existing entry, then force id and createdAt back to the originals and stamp
updatedAt with the current time. -/
def applyUpdates (e : DiaryEntry) (u : PartialDiaryEntry) (now : String) :
    DiaryEntry where
  id := e.id
  date := u.date.getD e.date
  audioText := u.audioText.getD e.audioText
  imagePath := u.imagePath.getD e.imagePath
  prompt := u.prompt.getD e.prompt
  createdAt := e.createdAt
  updatedAt := some now
  style := u.style.orElse fun _ => e.style
  mood := u.mood.orElse fun _ => e.mood

/-- Replace the first entry whose id matches with its updated version
(diaries.findIndex + in-place assignment); `none` when no entry matches.
Returns the new list together with the updated entry. -/
def updateFirstById (id : String) (u : PartialDiaryEntry) (now : String) :
    List DiaryEntry → Option (List DiaryEntry × DiaryEntry)
  | [] => none
  | e :: rest =>
    if e.id = id then
      let e2 := applyUpdates e u now
      some (e2 :: rest, e2)
    else (updateFirstById id u now rest).map fun p => (e :: p.1, p.2)

/-- updateDiary: looks up by id; if absent returns null (modelled `none`)
without validating and without writing. Otherwise validates the updates
object (throwing on failure), merges, persists (writeStorage stamps
lastModified with `now`), and returns the on-disk storage together with the
updated entry. -/
def updateDiary (storage : DiaryStorage) (id : String)
    (updates : PartialDiaryEntry) (now : String) :
    Except String (DiaryStorage × Option DiaryEntry) :=
  match updateFirstById id updates now storage.diaries with
  | none => .ok (storage, none)
  | some (rest, e2) =>
    match validateEntry updates with
    | .error msg => .error msg
    | .ok _ => .ok (⟨storage.version, rest, now⟩, some e2)

/-- Filter options (interface DiaryFilterOptions). -/
structure DiaryFilterOptions where
  startDate : Option String := none
  endDate : Option String := none
  searchText : Option String := none
  style : Option String := none
  mood : Option String := none
deriving DecidableEq

/-- Character-list helper: `pat` occurs at the head of `s`. -/
def leadingRun : List Char → List Char → Bool
  | [], _ => true
  | _ :: _, [] => false
  | p :: ps, c :: cs => p = c && leadingRun ps cs

/-- Character-list helper: `pat` occurs contiguously somewhere in `s`
(String.prototype.includes). -/
def containsRun (pat : List Char) : List Char → Bool
  | [] => pat.isEmpty
  | c :: cs => leadingRun pat (c :: cs) || containsRun pat cs

/-- s.includes(t) on strings. -/
def strIncludes (s t : String) : Bool := containsRun t.toList s.toList

/-- matchesFilter: AND of date range, case-insensitive text search across
audioText or prompt, exact style, exact mood. Each criterion is guarded by
a JavaScript truthiness test on the filter field, so an absent or empty
string criterion is skipped. -/
def matchesFilter (e : DiaryEntry) (f : DiaryFilterOptions) : Bool :=
  let startOk := match f.startDate with
    | some sd => !(sd ≠ "" && decide (e.date < sd))
    | none => true
  let endOk := match f.endDate with
    | some ed => !(ed ≠ "" && decide (ed < e.date))
    | none => true
  let searchOk := match f.searchText with
    | some t =>
      if t ≠ "" then
        strIncludes e.audioText.toLower t.toLower ||
        strIncludes e.prompt.toLower t.toLower
      else true
    | none => true
  let styleOk := match f.style with
    | some s => if s ≠ "" then decide (e.style = some s) else true
    | none => true
  let moodOk := match f.mood with
    | some m => if m ≠ "" then decide (e.mood = some m) else true
    | none => true
  startOk && endOk && searchOk && styleOk && moodOk

/-- Sort field (type DiarySortField). -/
inductive DiarySortField where
  | date
  | createdAt
  | updatedAt
deriving DecidableEq

/-- Sort order (type DiarySortOrder). -/
inductive DiarySortOrder where
  | asc
  | desc
deriving DecidableEq

/-- Sort options (interface DiarySortOptions), both fields optional. -/
structure DiarySortOptions where
  field : Option DiarySortField := none
  order : Option DiarySortOrder := none
deriving DecidableEq

/-- The comparison key `a[field] || a.createdAt`: the chosen field falls
back to createdAt when absent or the empty string (both falsy). -/
def sortKey (f : DiarySortField) (e : DiaryEntry) : String :=
  let v := match f with
    | .date => e.date
    | .createdAt => e.createdAt
    | .updatedAt => e.updatedAt.getD ""
  if v = "" then e.createdAt else v

/-- sortEntries: stable sort of a copy of the list by localeCompare of the
chosen key (modelled as lexicographic string order), defaults field=date
order=desc applied by destructuring when the subfields are absent. -/
def sortEntries (entries : List DiaryEntry) (options : DiarySortOptions) :
    List DiaryEntry :=
  let f := options.field.getD .date
  let ord := options.order.getD .desc
  entries.mergeSort fun a b =>
    match ord with
    | .asc => decide (sortKey f a ≤ sortKey f b)
    | .desc => decide (sortKey f b ≤ sortKey f a)

/-- List options (interface DiaryListOptions). -/
structure DiaryListOptions where
  filter : Option DiaryFilterOptions := none
  sort : Option DiarySortOptions := none
  limit : Option Nat := none
deriving DecidableEq

/-- listDiaries: filter (when a filter is provided), then sort (only when a
sort options object is provided), then truncate (only when limit is present
and truthy, so limit 0 is skipped). The storage read is the explicit
`storage` argument. -/
def listDiaries (storage : DiaryStorage) (options : Option DiaryListOptions) :
    List DiaryEntry :=
  let entries := storage.diaries
  let entries := match options.bind (·.filter) with
    | some f => entries.filter (matchesFilter · f)
    | none => entries
  let entries := match options.bind (·.sort) with
    | some s => sortEntries entries s
    | none => entries
  match options.bind (·.limit) with
  | some l => if l ≠ 0 then entries.take l else entries
  | none => entries

/-!
Gemini API client harness (the retry/backoff wrapper).

A GeminiError carries a message, a machine-readable code and a retryability
flag; the four subclasses are fixed (message, code, retryable) triples.
The remote call of each attempt is modelled by an explicit outcome
function `outcomes : Nat → ApiOutcome` giving, for each 0-based attempt
index, either the response the call resolved with or the classified
GeminiError it threw. Waits are recorded as a list of delays in
milliseconds instead of sleeping.
-/

/-- class GeminiError: message, code, retryable flag. -/
structure GeminiError where
  message : String
  code : String
  retryable : Bool
deriving DecidableEq

/-- class GeminiAuthError (code AUTH_ERROR, not retryable). -/
def authError (message : String := "Authentication failed") : GeminiError :=
  ⟨message, "AUTH_ERROR", false⟩

/-- class GeminiRateLimitError (code RATE_LIMIT, retryable). -/
def rateLimitError (message : String := "Rate limit exceeded") : GeminiError :=
  ⟨message, "RATE_LIMIT", true⟩

/-- class GeminiNetworkError (code NETWORK_ERROR, retryable). -/
def networkError (message : String := "Network error occurred") : GeminiError :=
  ⟨message, "NETWORK_ERROR", true⟩

/-- class GeminiRequestError (code REQUEST_ERROR, not retryable). -/
def requestError (message : String := "Invalid request") : GeminiError :=
  ⟨message, "REQUEST_ERROR", false⟩

/-- interface GeminiImageResponse. -/
structure GeminiImageResponse where
  success : Bool
  imageData : Option String := none
  errorMessage : Option String := none
  model : Option String := none
deriving DecidableEq

/-- JavaScript truthiness of an optional string field (response.imageData):
absent (undefined) and the empty string are both falsy. -/
def truthyStr (v : Option String) : Bool :=
  match v with
  | none => false
  | some s => !(s = "")

/-- What one callApi attempt does: resolve with a response, or throw a
classified GeminiError. -/
inductive ApiOutcome where
  | ok (resp : GeminiImageResponse)
  | err (e : GeminiError)
deriving DecidableEq

/-- calculateBackoff(attempt) = retryDelay * 2 ^ attempt. -/
def calculateBackoff (retryDelay attempt : Nat) : Nat :=
  retryDelay * 2 ^ attempt

/-- The trace of one generateImage run: the value it returns or the error
it throws, the number of callApi calls made, and the backoff waits
performed, in order. -/
structure GeminiRunResult where
  result : Except GeminiError GeminiImageResponse
  calls : Nat
  waits : List Nat

/-- The retry loop body of GeminiClient.generateImage, from attempt index
`attempt` on, with `fuel` loop iterations remaining (the loop runs for
attempt = 0 .. maxRetries, so fuel starts at maxRetries + 1 and the fuel-0
case — the throw after the loop — is unreachable). Per iteration: a
resolved response with success and image data is returned at once; a
resolved response without them becomes a thrown GeminiRequestError; a
thrown GeminiError that is not retryable, or any error on the last allowed
attempt, is rethrown; otherwise the loop waits calculateBackoff(attempt)
and retries. The payload test response.success && response.imageData is a
truthiness check, so an empty-string image payload counts as absent. -/
def generateAux (retryDelay maxRetries : Nat) (outcomes : Nat → ApiOutcome) :
    Nat → Nat → GeminiRunResult
  | _, 0 => ⟨.error (requestError "Unknown error"), 0, []⟩
  | attempt, fuel + 1 =>
    let step : Except GeminiError GeminiImageResponse :=
      match outcomes attempt with
      | .ok resp =>
        if resp.success && truthyStr resp.imageData then .ok resp
        else .error (requestError "API returned unsuccessful response")
      | .err e => .error e
    match step with
    | .ok resp => ⟨.ok resp, 1, []⟩
    | .error e =>
      if !e.retryable || attempt = maxRetries then ⟨.error e, 1, []⟩
      else
        let w := calculateBackoff retryDelay attempt
        let rest := generateAux retryDelay maxRetries outcomes (attempt + 1) fuel
        ⟨rest.result, rest.calls + 1, w :: rest.waits⟩

/-- GeminiClient.generateImage with config retryDelay/maxRetries, run
against the per-attempt outcomes. -/
def generateImage (retryDelay maxRetries : Nat)
    (outcomes : Nat → ApiOutcome) : GeminiRunResult :=
  generateAux retryDelay maxRetries outcomes 0 (maxRetries + 1)

/-!
Prompts module (prompt builder and A/B experiment).
-/

/-- type ArtStyle (pictureBook is the source value picture-book). -/
inductive ArtStyle where
  | watercolor
  | crayon
  | pictureBook
  | anime
  | pastel
deriving DecidableEq

/-- type Mood. -/
inductive Mood where
  | happy
  | exciting
  | calm
  | nostalgic
  | warm
deriving DecidableEq

/-- Detail level: simple, normal or detailed. -/
inductive DetailLevel where
  | simple
  | normal
  | detailed
deriving DecidableEq

/-- Aspect value: 1:1, 4:3 or 16:9. -/
inductive AspectValue where
  | square
  | fourThree
  | sixteenNine
deriving DecidableEq

/-- interface DiaryPromptOptions (aspect embeds the 1:1/4:3/16:9 field). -/
structure DiaryPromptOptions where
  userInput : String
  style : Option ArtStyle := none
  mood : Option Mood := none
  age : Option Nat := none
  detailLevel : Option DetailLevel := none
  aspect : Option AspectValue := none
deriving DecidableEq

/-- A Partial DiaryPromptOptions: every field optional. -/
structure PartialPromptOptions where
  userInput : Option String := none
  style : Option ArtStyle := none
  mood : Option Mood := none
  age : Option Nat := none
  detailLevel : Option DetailLevel := none
  aspect : Option AspectValue := none
deriving DecidableEq

/-- The PromptBuilder constructor: options with every default applied
(watercolor, happy, age 5, normal, 4:3). -/
structure ResolvedPromptOptions where
  userInput : String
  style : ArtStyle
  mood : Mood
  age : Nat
  detailLevel : DetailLevel
  aspect : AspectValue
deriving DecidableEq

/-- new PromptBuilder(options): fill each absent field with its default. -/
def resolveOptions (o : DiaryPromptOptions) : ResolvedPromptOptions :=
  ⟨o.userInput, o.style.getD .watercolor, o.mood.getD .happy, o.age.getD 5,
    o.detailLevel.getD .normal, o.aspect.getD .fourThree⟩

/-- const STYLE_DESCRIPTIONS lookup. -/
def styleDescription : ArtStyle → String
  | .watercolor => "水彩画風のやわらかいタッチ"
  | .crayon => "クレヨンで描いたような無邪なタッチ"
  | .pictureBook => "絵本風の温かみのあるイラスト"
  | .anime => "アニメ風のきらきらした表現"
  | .pastel => "パステルカラーの柔らかい色使い"

/-- const MOOD_DESCRIPTIONS lookup. -/
def moodDescription : Mood → String
  | .happy => "楽しそな"
  | .exciting => "わくわくする"
  | .calm => "穏やかな"
  | .nostalgic => "懐かしい"
  | .warm => "温かみのある"

/-- getAgeExpression: inclusive thresholds at 3, 6, 9. -/
def getAgeExpression (age : Nat) : String :=
  if age ≤ 3 then "幼児向けのシンプルで分かりやすい表現"
  else if age ≤ 6 then "未就学児向けの親しみやすい表現"
  else if age ≤ 9 then "小学生向けの楽しい表現"
  else "年齢に応じた適切な表現"

/-- The detail-level composition phrase of buildAgeInstructions. -/
def detailInstructions : DetailLevel → String
  | .simple => "シンプルで分かりやすい構図"
  | .detailed => "繊細なディテールまで表現"
  | .normal => "バランスの取れた構図"

/-- PromptBuilder.buildAgeInstructions. -/
def buildAgeInstructions (o : ResolvedPromptOptions) : String :=
  getAgeExpression o.age ++ "、" ++ detailInstructions o.detailLevel ++ "。"

/-- PromptBuilder.buildAspectInstruction (the ratioMap lookup). -/
def buildAspectInstruction : AspectValue → String
  | .square => "正方形の構図"
  | .fourThree => "4:3の横長の構図"
  | .sixteenNine => "16:9のワイドスクイン構図"

/-- interface PromptTemplate. -/
structure PromptTemplate where
  name : String
  description : String
  template : String
  defaultParameters : PartialPromptOptions
deriving DecidableEq

/-- PROMPT_TEMPLATES.standard, the default template of build(). -/
def standardTemplate : PromptTemplate where
  name := "standard"
  description := "Standard illustration for elementary school children"
  template :=
    "絵日風のイラスト：\x7b\x7buserInput\x7d\x7d。\x7b\x7bstyleDescription\x7d\x7dで\x7b\x7bmoodDescription\x7d\x7d雰囲気を表現。"
  defaultParameters :=
    ⟨none, some .watercolor, some .happy, some 7, some .normal, none⟩

/-- PromptBuilder.build(template): substitute the three placeholders, then
append the technical instructions (age instructions and aspect instruction
joined by 、) after a space. -/
def promptBuild (o : ResolvedPromptOptions) (t : PromptTemplate) : String :=
  let p := t.template
  let p := p.replace "\x7b\x7buserInput\x7d\x7d" o.userInput
  let p := p.replace "\x7b\x7bstyleDescription\x7d\x7d" (styleDescription o.style)
  let p := p.replace "\x7b\x7bmoodDescription\x7d\x7d" (moodDescription o.mood)
  let technical := buildAgeInstructions o ++ "、" ++ buildAspectInstruction o.aspect
  p ++ " " ++ technical

/-- interface PromptExperimentConfig. -/
structure PromptExperimentConfig where
  basePrompt : DiaryPromptOptions
  variations : List PartialPromptOptions
  maxVariations : Option Nat := none
deriving DecidableEq

/-- One labelled variation of a PromptExperimentResult. -/
structure PromptVariation where
  prompt : String
  parameters : DiaryPromptOptions
  version : String
deriving DecidableEq

/-- PromptExperimentResult without the impure experimentId and timestamp
fields (both derived from the current time, not from the configuration). -/
structure PromptExperimentResult where
  basePrompt : String
  variations : List PromptVariation
deriving DecidableEq

/-- The shallow merge of a partial override over the base options
(spread of the override over the base; present override fields win). -/
def mergePromptOptions (base : DiaryPromptOptions) (v : PartialPromptOptions) :
    DiaryPromptOptions :=
  ⟨v.userInput.getD base.userInput,
    v.style.orElse fun _ => base.style,
    v.mood.orElse fun _ => base.mood,
    v.age.orElse fun _ => base.age,
    v.detailLevel.orElse fun _ => base.detailLevel,
    v.aspect.orElse fun _ => base.aspect⟩

/-- The for-loop of generateVariations: walk the overrides with `k` more
iterations allowed, `i` the 0-based loop index, producing one built
variation per override labelled variation-(i+1). -/
def variationLoop (base : DiaryPromptOptions) :
    List PartialPromptOptions → Nat → Nat → List PromptVariation
  | _, 0, _ => []
  | [], _ + 1, _ => []
  | v :: vs, k + 1, i =>
    let params := mergePromptOptions base v
    ⟨promptBuild (resolveOptions params) standardTemplate, params,
      "variation-" ++ toString (i + 1)⟩ :: variationLoop base vs k (i + 1)

/-- PromptExperiment.generateVariations: the base prompt first, labelled
base, then one variation per override for loop indices
i < min(variations.length, maxVariations ?? variations.length). -/
def generateVariations (config : PromptExperimentConfig) :
    PromptExperimentResult :=
  let baseStr := promptBuild (resolveOptions config.basePrompt) standardTemplate
  let maxV := config.maxVariations.getD config.variations.length
  let rest := variationLoop config.basePrompt config.variations
    (min config.variations.length maxV) 0
  ⟨baseStr, ⟨baseStr, config.basePrompt, "base"⟩ :: rest⟩

/-!
Concrete test data used to instantiate the theorems below.
-/

deriving instance DecidableEq for Except

/-- A valid stored entry. -/
def sampleEntry : DiaryEntry :=
  ⟨"2024-05-01-abc-0001", "2024-05-01", "played in the park", "./data/images/1.png",
    "a sunny park", "2024-05-01T10:00:00.000Z", none, some "watercolor", none⟩

/-- A second valid stored entry with a later date. -/
def sampleEntry2 : DiaryEntry :=
  ⟨"2024-05-02-abc-0002", "2024-05-02", "visited grandma", "./data/images/2.png",
    "a cosy house", "2024-05-02T09:00:00.000Z", none, none, some "calm"⟩

/-- A storage holding the sample entry. -/
def sampleStorage : DiaryStorage :=
  ⟨"1.0.0", [sampleEntry], "2024-05-01T10:00:00.000Z"⟩

/-- A storage holding both sample entries, earlier date first. -/
def sampleStorage2 : DiaryStorage :=
  ⟨"1.0.0", [sampleEntry, sampleEntry2], "2024-05-02T09:00:00.000Z"⟩

/-- A partial update touching only the mood field. -/
def moodOnlyUpdate : PartialDiaryEntry :=
  ⟨none, none, none, none, none, none, none, none, some "happy"⟩

/-- A partial update carrying every field validateEntry requires. -/
def fullUpdate : PartialDiaryEntry :=
  ⟨none, some "2024-05-03", some "went swimming", some "./data/images/3.png",
    some "a swimming pool", none, none, none, some "exciting"⟩

/-- The successful mock response of callApi. -/
def mockResponse : GeminiImageResponse :=
  ⟨true, some "base64_mock_image_data", none, none⟩

/-- Attempt outcomes: RATE_LIMIT on the first two attempts, then success. -/
def twoRateLimitThenSuccess : Nat → ApiOutcome := fun i =>
  if i = 0 then .err (rateLimitError "Rate limit exceeded")
  else if i = 1 then .err (rateLimitError "Rate limit exceeded")
  else .ok mockResponse

/-- Attempt outcomes: AUTH_ERROR first, success afterwards. -/
def authThenSuccess : Nat → ApiOutcome := fun i =>
  if i = 0 then .err (authError "Invalid API key") else .ok mockResponse

/-- Attempt outcomes: every attempt hits the rate limit. -/
def alwaysRateLimit : Nat → ApiOutcome :=
  fun _ => .err (rateLimitError "Rate limit exceeded")

/-- Attempt outcomes: an unsuccessful response first, success afterwards. -/
def badResponseThenSuccess : Nat → ApiOutcome := fun i =>
  if i = 0 then .ok ⟨false, none, some "quota", none⟩ else .ok mockResponse

/-- Placeholder variation used as the List.getD default. -/
def defaultVariation : PromptVariation :=
  ⟨"", ⟨"", none, none, none, none, none⟩, ""⟩

/-- Placeholder partial options used as the List.getD default. -/
def defaultPartialOptions : PartialPromptOptions :=
  ⟨none, none, none, none, none, none⟩

/-- A concrete experiment configuration with two overrides. -/
def sampleExperiment : PromptExperimentConfig :=
  ⟨⟨"公園で遊んだ", none, none, some 4, none, none⟩,
    [⟨none, some .crayon, none, none, none, none⟩,
      ⟨none, none, some .calm, none, none, some .square⟩],
    none⟩

/-!
Theorems.
-/

/-- Helper: removeFirstById misses when no entry carries the id. -/
theorem removeFirstById_eq_none {id : String} :
    ∀ l : List DiaryEntry, (∀ e ∈ l, e.id ≠ id) → removeFirstById id l = none := by
  intro l
  induction l with
  | nil => intro _; rfl
  | cons e rest ih =>
    intro h
    simp only [removeFirstById]
    rw [if_neg (h e (by simp))]
    rw [ih fun x hx => h x (by simp [hx])]
    rfl

/-- Helper: removeFirstById removes exactly the first entry with the id. -/
theorem removeFirstById_found {id : String} (e : DiaryEntry)
    (post : List DiaryEntry) (he : e.id = id) :
    ∀ pre : List DiaryEntry, (∀ x ∈ pre, x.id ≠ id) →
      removeFirstById id (pre ++ e :: post) = some (pre ++ post) := by
  intro pre
  induction pre with
  | nil => intro _; simp [removeFirstById, he]
  | cons a rest ih =>
    intro h
    simp only [List.cons_append, removeFirstById]
    rw [if_neg (h a (by simp))]
    simp only [List.append_eq]
    rw [ih fun x hx => h x (by simp [hx])]
    rfl

/-- C6: delete(id) on an unknown id returns false and performs no write, so
the persisted storage — lastModified included — is unchanged; delete of a
present id removes exactly the first entry with that id, persists with a
fresh lastModified, and returns true. -/
theorem deleteDiary_spec :
    (∀ (storage : DiaryStorage) (id now : String),
      (∀ e ∈ storage.diaries, e.id ≠ id) →
      deleteDiary storage id now = (storage, false)) ∧
    (∀ (storage : DiaryStorage) (id now : String) (pre post : List DiaryEntry)
      (e : DiaryEntry),
      storage.diaries = pre ++ e :: post → e.id = id →
      (∀ x ∈ pre, x.id ≠ id) →
      deleteDiary storage id now =
        (⟨storage.version, pre ++ post, now⟩, true)) := by
  constructor
  · intro storage id now h
    unfold deleteDiary
    rw [removeFirstById_eq_none storage.diaries h]
  · intro storage id now pre post e hd he hpre
    unfold deleteDiary
    rw [hd, removeFirstById_found e post he pre hpre]

/-- Witness for C6 at concrete inputs. -/
theorem deleteDiary_spec_witness :
    deleteDiary sampleStorage "no-such-id" "2024-06-01T00:00:00.000Z" =
      (sampleStorage, false) ∧
    deleteDiary sampleStorage "2024-05-01-abc-0001" "2024-06-01T00:00:00.000Z" =
      (⟨"1.0.0", [], "2024-06-01T00:00:00.000Z"⟩, true) :=
  ⟨deleteDiary_spec.1 sampleStorage "no-such-id" _ (by decide),
    deleteDiary_spec.2 sampleStorage "2024-05-01-abc-0001" _ [] [] sampleEntry
      rfl (by decide) (by simp)⟩

/-- C5: load on an absent backing file returns a fresh empty storage
(version stamp, empty diaries, current timestamp) and this is not an error;
a file that parses as JSON but whose diaries field is missing or not an
array raises a fatal format error, distinct from the file-absent case. -/
theorem loadDiaries_spec :
    (∀ now : String, loadDiaries none now = .ok ⟨STORAGE_VERSION, [], now⟩) ∧
    (∀ (raw : RawStorage) (now : String),
      raw.diaries = .missing ∨ raw.diaries = .notArray →
      loadDiaries (some raw) now =
        .error "Invalid storage format: missing or invalid \"diaries\" array") := by
  constructor
  · intro now; rfl
  · intro raw now h
    rcases h with h | h <;> simp [loadDiaries, h]

/-- Witness for C5 at concrete inputs. -/
theorem loadDiaries_spec_witness :
    loadDiaries (some ⟨"1.0.0", .missing, "2024-05-01T10:00:00.000Z"⟩)
        "2024-06-01T00:00:00.000Z" =
      .error "Invalid storage format: missing or invalid \"diaries\" array" :=
  loadDiaries_spec.2 ⟨"1.0.0", .missing, "2024-05-01T10:00:00.000Z"⟩
    "2024-06-01T00:00:00.000Z" (Or.inl rfl)

/-- C10: listDiaries with limit = 0 skips the truncation step (0 is falsy),
so every matched entry is returned; the slice to the first limit entries
happens only for non-zero limits. -/
theorem listDiaries_limit_zero_spec :
    (∀ (storage : DiaryStorage) (fil : Option DiaryFilterOptions)
      (srt : Option DiarySortOptions),
      listDiaries storage (some ⟨fil, srt, some 0⟩) =
        listDiaries storage (some ⟨fil, srt, none⟩)) ∧
    (∀ (storage : DiaryStorage) (f : DiaryFilterOptions),
      listDiaries storage (some ⟨some f, none, some 0⟩) =
        storage.diaries.filter (matchesFilter · f)) ∧
    (∀ (storage : DiaryStorage) (fil : Option DiaryFilterOptions)
      (srt : Option DiarySortOptions) (l : Nat), l ≠ 0 →
      listDiaries storage (some ⟨fil, srt, some l⟩) =
        (listDiaries storage (some ⟨fil, srt, none⟩)).take l) := by
  refine ⟨fun storage fil srt => ?_, fun storage f => ?_, fun storage fil srt l hl => ?_⟩
  · simp [listDiaries]
  · simp [listDiaries]
  · simp [listDiaries, hl]

/-- Witness for C10 at concrete inputs. -/
theorem listDiaries_limit_zero_spec_witness :
    listDiaries sampleStorage2 (some ⟨none, none, some 1⟩) =
      (listDiaries sampleStorage2 (some ⟨none, none, none⟩)).take 1 :=
  listDiaries_limit_zero_spec.2.2 sampleStorage2 none none 1 (by decide)

/-- Unfolding step: a resolved response with success and a truthy image
payload is returned at once. -/
theorem generateAux_step_ok (d m attempt f : Nat) (outcomes : Nat → ApiOutcome)
    (resp : GeminiImageResponse) (hout : outcomes attempt = .ok resp)
    (hv : (resp.success && truthyStr resp.imageData) = true) :
    generateAux d m outcomes attempt (f + 1) = ⟨.ok resp, 1, []⟩ := by
  simp [generateAux, hout, hv]

/-- Unfolding step: a resolved response without success or without a truthy
image payload becomes a thrown GeminiRequestError, which is not retryable
and therefore terminal. -/
theorem generateAux_step_bad_response (d m attempt f : Nat)
    (outcomes : Nat → ApiOutcome) (resp : GeminiImageResponse)
    (hout : outcomes attempt = .ok resp)
    (hv : (resp.success && truthyStr resp.imageData) = false) :
    generateAux d m outcomes attempt (f + 1) =
      ⟨.error (requestError "API returned unsuccessful response"), 1, []⟩ := by
  simp [generateAux, hout, hv, requestError]

/-- Unfolding step: a thrown error that is not retryable, or any thrown
error on the last allowed attempt, is rethrown. -/
theorem generateAux_step_stop (d m attempt f : Nat) (outcomes : Nat → ApiOutcome)
    (e : GeminiError) (hout : outcomes attempt = .err e)
    (hstop : e.retryable = false ∨ attempt = m) :
    generateAux d m outcomes attempt (f + 1) = ⟨.error e, 1, []⟩ := by
  rcases hstop with h | h
  · simp [generateAux, hout, h]
  · subst h
    simp [generateAux, hout]

/-- Unfolding step: a retryable thrown error before the last allowed attempt
waits calculateBackoff(attempt) and retries. -/
theorem generateAux_step_retry (d m attempt f : Nat) (outcomes : Nat → ApiOutcome)
    (e : GeminiError) (hout : outcomes attempt = .err e)
    (hr : e.retryable = true) (hne : attempt ≠ m) :
    generateAux d m outcomes attempt (f + 1) =
      ⟨(generateAux d m outcomes (attempt + 1) f).result,
        (generateAux d m outcomes (attempt + 1) f).calls + 1,
        calculateBackoff d attempt ::
          (generateAux d m outcomes (attempt + 1) f).waits⟩ := by
  simp [generateAux, hout, hr, hne]

/-- Helper: shifting the attempt index across one backoff wait. -/
theorem backoff_range_shift (d attempt c : Nat) :
    (List.range (c + 1)).map (fun j => calculateBackoff d (attempt + j)) =
      calculateBackoff d attempt ::
        (List.range c).map (fun j => calculateBackoff d (attempt + 1 + j)) := by
  rw [List.range_succ_eq_map]
  simp only [List.map_cons, List.map_map, Nat.add_zero]
  congr 1
  apply List.map_congr_left
  intro j _
  simp only [Function.comp_apply]
  congr 1
  omega

/-- Helper: a run with at least one attempt makes at least one call. -/
theorem generateAux_calls_pos (d m : Nat) (outcomes : Nat → ApiOutcome)
    (f attempt : Nat) :
    1 ≤ (generateAux d m outcomes attempt (f + 1)).calls := by
  cases houtcome : outcomes attempt with
  | ok resp =>
    by_cases hv : (resp.success && truthyStr resp.imageData) = true
    · rw [generateAux_step_ok d m attempt f outcomes resp houtcome hv]
    · rw [generateAux_step_bad_response d m attempt f outcomes resp houtcome
        (Bool.not_eq_true _ ▸ hv)]
  | err e =>
    by_cases hr : e.retryable = true
    · by_cases hm : attempt = m
      · rw [generateAux_step_stop d m attempt f outcomes e houtcome (Or.inr hm)]
      · rw [generateAux_step_retry d m attempt f outcomes e houtcome hr hm]
        show 1 ≤ (generateAux d m outcomes (attempt + 1) f).calls + 1
        omega
    · rw [generateAux_step_stop d m attempt f outcomes e houtcome
        (Or.inl (Bool.not_eq_true _ ▸ hr))]

/-- Helper: a run makes at most `fuel` calls. -/
theorem generateAux_calls_le (d m : Nat) (outcomes : Nat → ApiOutcome) :
    ∀ (fuel attempt : Nat), (generateAux d m outcomes attempt fuel).calls ≤ fuel := by
  intro fuel
  induction fuel with
  | zero => intro attempt; simp [generateAux]
  | succ f ih =>
    intro attempt
    cases houtcome : outcomes attempt with
    | ok resp =>
      by_cases hv : (resp.success && truthyStr resp.imageData) = true
      · rw [generateAux_step_ok d m attempt f outcomes resp houtcome hv]
        show 1 ≤ f + 1
        omega
      · rw [generateAux_step_bad_response d m attempt f outcomes resp houtcome
          (Bool.not_eq_true _ ▸ hv)]
        show 1 ≤ f + 1
        omega
    | err e =>
      by_cases hr : e.retryable = true
      · by_cases hm : attempt = m
        · rw [generateAux_step_stop d m attempt f outcomes e houtcome (Or.inr hm)]
          show 1 ≤ f + 1
          omega
        · rw [generateAux_step_retry d m attempt f outcomes e houtcome hr hm]
          show (generateAux d m outcomes (attempt + 1) f).calls + 1 ≤ f + 1
          have := ih (attempt + 1)
          omega
      · rw [generateAux_step_stop d m attempt f outcomes e houtcome
          (Or.inl (Bool.not_eq_true _ ▸ hr))]
        show 1 ≤ f + 1
        omega

/-- Helper: the backoff waits of any run are exactly
initialDelay * 2 ^ attemptIndex for the successive retried attempts. -/
theorem generateAux_waits_eq (d m : Nat) (outcomes : Nat → ApiOutcome) :
    ∀ (fuel attempt : Nat), attempt + fuel = m + 1 →
      (generateAux d m outcomes attempt fuel).waits =
        (List.range ((generateAux d m outcomes attempt fuel).calls - 1)).map
          (fun j => calculateBackoff d (attempt + j)) := by
  intro fuel
  induction fuel with
  | zero => intro attempt _; simp [generateAux]
  | succ f ih =>
    intro attempt hsum
    cases houtcome : outcomes attempt with
    | ok resp =>
      by_cases hv : (resp.success && truthyStr resp.imageData) = true
      · rw [generateAux_step_ok d m attempt f outcomes resp houtcome hv]; simp
      · rw [generateAux_step_bad_response d m attempt f outcomes resp houtcome
          (Bool.not_eq_true _ ▸ hv)]
        simp
    | err e =>
      by_cases hr : e.retryable = true
      · by_cases hm : attempt = m
        · rw [generateAux_step_stop d m attempt f outcomes e houtcome (Or.inr hm)]
          simp
        · rw [generateAux_step_retry d m attempt f outcomes e houtcome hr hm]
          have hfpos : 1 ≤ f := by omega
          obtain ⟨g, hg⟩ := Nat.exists_eq_add_of_le' hfpos
          have hcalls := hg ▸ generateAux_calls_pos d m outcomes g (attempt + 1)
          obtain ⟨c, hc⟩ := Nat.exists_eq_add_of_le' hcalls
          have hrec := ih (attempt + 1) (by omega)
          simp only [hrec, hc]
          have h1 : c + 1 + 1 - 1 = c + 1 := by omega
          have h2 : c + 1 - 1 = c := by omega
          rw [h1, h2, backoff_range_shift]
      · rw [generateAux_step_stop d m attempt f outcomes e houtcome
          (Or.inl (Bool.not_eq_true _ ▸ hr))]
        simp

/-- Helper: when every attempt up to the retry budget throws a retryable
error, the run uses every attempt and ends with the last error. -/
theorem generateAux_retryable_run (d m : Nat) (outcomes : Nat → ApiOutcome)
    (es : Nat → GeminiError) :
    ∀ (fuel attempt : Nat), attempt ≤ m → attempt + fuel = m + 1 →
      (∀ i, attempt ≤ i → i ≤ m → outcomes i = .err (es i)) →
      (∀ i, attempt ≤ i → i ≤ m → (es i).retryable = true) →
      generateAux d m outcomes attempt fuel =
        ⟨.error (es m), fuel,
          (List.range (fuel - 1)).map (fun j => calculateBackoff d (attempt + j))⟩ := by
  intro fuel
  induction fuel with
  | zero => intro attempt hle hsum _ _; omega
  | succ f ih =>
    intro attempt hle hsum hout hret
    by_cases hm : attempt = m
    · rw [generateAux_step_stop d m attempt f outcomes (es attempt)
        (hout attempt le_rfl hle) (Or.inr hm)]
      have hf : f = 0 := by omega
      subst hf
      simp [hm]
    · rw [generateAux_step_retry d m attempt f outcomes (es attempt)
        (hout attempt le_rfl hle) (hret attempt le_rfl hle) hm]
      rw [ih (attempt + 1) (by omega) (by omega)
        (fun i h1 h2 => hout i (by omega) h2)
        (fun i h1 h2 => hret i (by omega) h2)]
      have hfpos : 1 ≤ f := by omega
      obtain ⟨g, hg⟩ := Nat.exists_eq_add_of_le' hfpos
      subst hg
      simp only [Nat.add_sub_cancel]
      rw [backoff_range_shift]

/-- C2: in the retry harness with initial delay d and maximum retries m,
the i-th backoff wait (after the retryable failure of 0-based attempt i)
is exactly d * 2 ^ i; at most m + 1 calls are ever made; RATE_LIMIT on the
first two attempts followed by a success gives exactly 3 calls with waits
d and d * 2; and a successful response with a truthy image payload returns
immediately after one call with no waits. -/
theorem generateImage_backoff_spec :
    (∀ (d m : Nat) (outcomes : Nat → ApiOutcome),
      (generateImage d m outcomes).waits =
        (List.range ((generateImage d m outcomes).calls - 1)).map
          (fun i => d * 2 ^ i) ∧
      (generateImage d m outcomes).calls ≤ m + 1) ∧
    (∀ (d m : Nat) (outcomes : Nat → ApiOutcome) (msg0 msg1 : String)
      (resp : GeminiImageResponse), 2 ≤ m →
      outcomes 0 = .err (rateLimitError msg0) →
      outcomes 1 = .err (rateLimitError msg1) →
      outcomes 2 = .ok resp → resp.success = true → truthyStr resp.imageData = true →
      generateImage d m outcomes = ⟨.ok resp, 3, [d, d * 2]⟩) ∧
    (∀ (d m : Nat) (outcomes : Nat → ApiOutcome) (resp : GeminiImageResponse),
      outcomes 0 = .ok resp → resp.success = true → truthyStr resp.imageData = true →
      generateImage d m outcomes = ⟨.ok resp, 1, []⟩) := by
  refine ⟨fun d m outcomes => ⟨?_, ?_⟩, ?_, ?_⟩
  · have h := generateAux_waits_eq d m outcomes (m + 1) 0 (by omega)
    simpa [generateImage, calculateBackoff] using h
  · exact generateAux_calls_le d m outcomes (m + 1) 0
  · intro d m outcomes msg0 msg1 resp h2 h0 h1 hok hs hd
    rcases m with _ | _ | m
    · exact absurd h2 (by omega)
    · exact absurd h2 (by omega)
    · show generateAux d (m + 1 + 1) outcomes 0 (m + 1 + 1 + 1) = _
      rw [generateAux_step_retry d (m + 1 + 1) 0 (m + 1 + 1) outcomes
        (rateLimitError msg0) h0 rfl (by omega)]
      norm_num
      rw [generateAux_step_retry d (m + 1 + 1) 1 (m + 1) outcomes
        (rateLimitError msg1) h1 rfl (by omega)]
      norm_num
      rw [generateAux_step_ok d (m + 1 + 1) 2 m outcomes resp hok (by simp [hs, hd])]
      simp [calculateBackoff]
  · intro d m outcomes resp h0 hs hd
    show generateAux d m outcomes 0 (m + 1) = _
    exact generateAux_step_ok d m 0 m outcomes resp h0 (by simp [hs, hd])

/-- Witness for C2 at concrete inputs. -/
theorem generateImage_backoff_spec_witness :
    generateImage 1000 3 twoRateLimitThenSuccess =
      ⟨.ok mockResponse, 3, [1000, 1000 * 2]⟩ :=
  generateImage_backoff_spec.2.1 1000 3 twoRateLimitThenSuccess
    "Rate limit exceeded" "Rate limit exceeded" mockResponse (by omega)
    rfl rfl rfl rfl rfl

/-- C3: a non-retryable error on the first attempt stops the run after
exactly one call with no backoff wait, and the error is propagated to the
caller unchanged; when every attempt throws a retryable error, the retries
are exhausted after m + 1 calls and the last classified error is propagated
unchanged. -/
theorem generateImage_nonretryable_spec :
    (∀ (d m : Nat) (outcomes : Nat → ApiOutcome) (e : GeminiError),
      outcomes 0 = .err e → e.retryable = false →
      generateImage d m outcomes = ⟨.error e, 1, []⟩) ∧
    (∀ (d m : Nat) (outcomes : Nat → ApiOutcome) (es : Nat → GeminiError),
      (∀ i, i ≤ m → outcomes i = .err (es i)) →
      (∀ i, i ≤ m → (es i).retryable = true) →
      generateImage d m outcomes =
        ⟨.error (es m), m + 1, (List.range m).map (fun i => d * 2 ^ i)⟩) := by
  constructor
  · intro d m outcomes e h0 hr
    show generateAux d m outcomes 0 (m + 1) = _
    exact generateAux_step_stop d m 0 m outcomes e h0 (Or.inl hr)
  · intro d m outcomes es hout hret
    show generateAux d m outcomes 0 (m + 1) = _
    rw [generateAux_retryable_run d m outcomes es (m + 1) 0 (by omega) (by omega)
      (fun i _ h2 => hout i h2) (fun i _ h2 => hret i h2)]
    simp [calculateBackoff]

/-- Witness for C3 at concrete inputs. -/
theorem generateImage_nonretryable_spec_witness :
    generateImage 1000 3 authThenSuccess =
      ⟨.error (authError "Invalid API key"), 1, []⟩ ∧
    generateImage 1000 1 alwaysRateLimit =
      ⟨.error (rateLimitError "Rate limit exceeded"), 1 + 1,
        (List.range 1).map (fun i => 1000 * 2 ^ i)⟩ :=
  ⟨generateImage_nonretryable_spec.1 1000 3 authThenSuccess
      (authError "Invalid API key") rfl rfl,
    generateImage_nonretryable_spec.2 1000 1 alwaysRateLimit
      (fun _ => rateLimitError "Rate limit exceeded")
      (fun _ _ => rfl) (fun _ _ => rfl)⟩

/-- C4: a response whose success flag is false or that carries no image
payload (absent or the falsy empty string) is converted into a RequestError
(code REQUEST_ERROR, not retryable) and is not retried even when attempts
remain; a successful response with a truthy payload is returned
immediately. -/
theorem generateImage_response_conversion_spec :
    (∀ (d m : Nat) (outcomes : Nat → ApiOutcome) (resp : GeminiImageResponse),
      outcomes 0 = .ok resp →
      resp.success = false ∨ resp.imageData = none ∨ resp.imageData = some "" →
      generateImage d m outcomes =
        ⟨.error (requestError "API returned unsuccessful response"), 1, []⟩) ∧
    (∀ s : String,
      (requestError s).code = "REQUEST_ERROR" ∧ (requestError s).retryable = false) ∧
    (∀ (d m : Nat) (outcomes : Nat → ApiOutcome) (resp : GeminiImageResponse),
      outcomes 0 = .ok resp → resp.success = true → truthyStr resp.imageData = true →
      generateImage d m outcomes = ⟨.ok resp, 1, []⟩) := by
  refine ⟨?_, fun s => ⟨rfl, rfl⟩, ?_⟩
  · intro d m outcomes resp h0 hbad
    show generateAux d m outcomes 0 (m + 1) = _
    apply generateAux_step_bad_response d m 0 m outcomes resp h0
    rcases hbad with h | h | h <;> simp [h, truthyStr]
  · intro d m outcomes resp h0 hs hd
    show generateAux d m outcomes 0 (m + 1) = _
    exact generateAux_step_ok d m 0 m outcomes resp h0 (by simp [hs, hd])

/-- Witness for C4 at concrete inputs (three retry attempts remained and
were not used). -/
theorem generateImage_response_conversion_spec_witness :
    generateImage 1000 3 badResponseThenSuccess =
      ⟨.error (requestError "API returned unsuccessful response"), 1, []⟩ ∧
    generateImage 1000 3 (fun _ => .ok mockResponse) = ⟨.ok mockResponse, 1, []⟩ :=
  ⟨generateImage_response_conversion_spec.1 1000 3 badResponseThenSuccess
      ⟨false, none, some "quota", none⟩ rfl (Or.inl rfl),
    generateImage_response_conversion_spec.2.2 1000 3 (fun _ => .ok mockResponse)
      mockResponse rfl rfl rfl⟩

/-- Helper: updateFirstById misses when no entry carries the id. -/
theorem updateFirstById_eq_none {id : String} (u : PartialDiaryEntry)
    (now : String) :
    ∀ l : List DiaryEntry, (∀ e ∈ l, e.id ≠ id) →
      updateFirstById id u now l = none := by
  intro l
  induction l with
  | nil => intro _; rfl
  | cons e rest ih =>
    intro h
    simp only [updateFirstById]
    rw [if_neg (h e (by simp))]
    rw [ih fun x hx => h x (by simp [hx])]
    rfl

/-- Helper: updateFirstById replaces exactly the first entry with the id. -/
theorem updateFirstById_found {id : String} (u : PartialDiaryEntry)
    (now : String) (e : DiaryEntry) (post : List DiaryEntry) (he : e.id = id) :
    ∀ pre : List DiaryEntry, (∀ x ∈ pre, x.id ≠ id) →
      updateFirstById id u now (pre ++ e :: post) =
        some (pre ++ applyUpdates e u now :: post, applyUpdates e u now) := by
  intro pre
  induction pre with
  | nil => intro _; simp [updateFirstById, he]
  | cons a rest ih =>
    intro h
    simp only [List.cons_append, updateFirstById]
    rw [if_neg (h a (by simp))]
    simp only [List.append_eq]
    rw [ih fun x hx => h x (by simp [hx])]
    rfl

/-- C1 counterexample: a partial update touching only an optional field is
rejected, because updateDiary validates the update object itself (not the
merged record); the claimed universal merge-and-return behaviour fails. -/
theorem updateDiary_counterexample :
    updateDiary sampleStorage "2024-05-01-abc-0001" moodOnlyUpdate
        "2024-05-02T10:00:00.000Z" =
      .error "audioText is required and cannot be empty" := by decide

/-- C1 (amended): for partial fields that themselves pass entry validation,
updateDiary merges them over the stored record, preserves id and createdAt,
stamps updatedAt with the current time, persists with a fresh lastModified,
and returns the updated entry; an unknown id yields null (not an error) for
arbitrary partial fields; and when the clock is at or after the previous
createdAt/updatedAt, the stamped updatedAt is ≥ both. -/
theorem updateDiary_spec :
    (∀ (storage : DiaryStorage) (id now : String) (u : PartialDiaryEntry),
      (∀ e ∈ storage.diaries, e.id ≠ id) →
      updateDiary storage id u now = .ok (storage, none)) ∧
    (∀ (storage : DiaryStorage) (id now : String) (u : PartialDiaryEntry)
      (pre post : List DiaryEntry) (e : DiaryEntry),
      validateEntry u = .ok () →
      storage.diaries = pre ++ e :: post → e.id = id →
      (∀ x ∈ pre, x.id ≠ id) →
      updateDiary storage id u now =
        .ok (⟨storage.version, pre ++ applyUpdates e u now :: post, now⟩,
          some (applyUpdates e u now)) ∧
      (applyUpdates e u now).id = e.id ∧
      (applyUpdates e u now).createdAt = e.createdAt ∧
      (applyUpdates e u now).updatedAt = some now) ∧
    (∀ (e : DiaryEntry) (u : PartialDiaryEntry) (now s : String),
      e.createdAt ≤ now → (∀ t, e.updatedAt = some t → t ≤ now) →
      (applyUpdates e u now).updatedAt = some s →
      e.createdAt ≤ s ∧ ∀ t, e.updatedAt = some t → t ≤ s) := by
  refine ⟨?_, ?_, ?_⟩
  · intro storage id now u h
    unfold updateDiary
    rw [updateFirstById_eq_none u now storage.diaries h]
  · intro storage id now u pre post e hval hd he hpre
    refine ⟨?_, rfl, rfl, rfl⟩
    unfold updateDiary
    rw [hd, updateFirstById_found u now e post he pre hpre, hval]
  · intro e u now s hc hu hs
    have hsn : now = s := by simpa [applyUpdates] using hs
    subst hsn
    exact ⟨hc, hu⟩

/-- Witness for the amended C1 at concrete inputs. -/
theorem updateDiary_spec_witness :
    updateDiary sampleStorage "2024-05-01-abc-0001" fullUpdate
        "2024-05-02T10:00:00.000Z" =
      .ok (⟨"1.0.0",
          [applyUpdates sampleEntry fullUpdate "2024-05-02T10:00:00.000Z"],
          "2024-05-02T10:00:00.000Z"⟩,
        some (applyUpdates sampleEntry fullUpdate "2024-05-02T10:00:00.000Z")) ∧
    (applyUpdates sampleEntry fullUpdate "2024-05-02T10:00:00.000Z").createdAt =
      sampleEntry.createdAt :=
  ⟨(updateDiary_spec.2.1 sampleStorage "2024-05-01-abc-0001"
      "2024-05-02T10:00:00.000Z" fullUpdate [] [] sampleEntry (by decide) rfl rfl
      (by simp)).1,
    (updateDiary_spec.2.1 sampleStorage "2024-05-01-abc-0001"
      "2024-05-02T10:00:00.000Z" fullUpdate [] [] sampleEntry (by decide) rfl rfl
      (by simp)).2.2.1⟩

/-- Helper: sortEntries permutes its input, so membership is preserved. -/
theorem mem_sortEntries {a : DiaryEntry} {entries : List DiaryEntry}
    {opts : DiarySortOptions} :
    a ∈ sortEntries entries opts ↔ a ∈ entries := by
  unfold sortEntries
  exact List.mem_mergeSort

/-- Helper: ascending sortEntries is pairwise non-decreasing on the key. -/
theorem sortEntries_asc_pairwise (entries : List DiaryEntry)
    (f : DiarySortField) :
    (sortEntries entries ⟨some f, some .asc⟩).Pairwise
      (fun a b => sortKey f a ≤ sortKey f b) := by
  have h := @List.sorted_mergeSort DiaryEntry
    (fun a b : DiaryEntry => decide (sortKey f a ≤ sortKey f b))
    (fun a b c hab hbc => by
      simp only [decide_eq_true_eq] at hab hbc ⊢
      exact le_trans hab hbc)
    (fun a b => by
      simp only [Bool.or_eq_true, decide_eq_true_eq]
      exact le_total _ _)
    entries
  exact h.imp fun hab => by simpa using hab

/-- Helper: descending sortEntries is pairwise non-increasing on the key. -/
theorem sortEntries_desc_pairwise (entries : List DiaryEntry)
    (f : DiarySortField) :
    (sortEntries entries ⟨some f, some .desc⟩).Pairwise
      (fun a b => sortKey f b ≤ sortKey f a) := by
  have h := @List.sorted_mergeSort DiaryEntry
    (fun a b : DiaryEntry => decide (sortKey f b ≤ sortKey f a))
    (fun a b c hab hbc => by
      simp only [decide_eq_true_eq] at hab hbc ⊢
      exact le_trans hbc hab)
    (fun a b => by
      simp only [Bool.or_eq_true, decide_eq_true_eq]
      exact le_total _ _)
    entries
  exact h.imp fun hab => by simpa using hab

/-- Helper: with both sort subfields absent the defaults field=date,
order=desc apply, giving a pairwise non-increasing date key. -/
theorem sortEntries_default_pairwise (entries : List DiaryEntry) :
    (sortEntries entries ⟨none, none⟩).Pairwise
      (fun a b => sortKey .date b ≤ sortKey .date a) :=
  sortEntries_desc_pairwise entries .date

/-- Helper: the date key is the date itself when the date is non-empty. -/
theorem sortKey_date (e : DiaryEntry) (h : e.date ≠ "") :
    sortKey .date e = e.date := by
  simp [sortKey, h]

/-- Helper: the updatedAt key falls back to createdAt when absent. -/
theorem sortKey_updatedAt_none (e : DiaryEntry) (h : e.updatedAt = none) :
    sortKey .updatedAt e = e.createdAt := by
  simp [sortKey, h]

/-- Helper: the date key falls back to createdAt on an empty date. -/
theorem sortKey_date_blank (e : DiaryEntry) (h : e.date = "") :
    sortKey .date e = e.createdAt := by
  simp [sortKey, h]

/-- Helper: listDiaries with only a sort option is exactly sortEntries. -/
theorem listDiaries_sort_only (storage : DiaryStorage) (s : DiarySortOptions) :
    listDiaries storage (some ⟨none, some s, none⟩) =
      sortEntries storage.diaries s := by
  simp [listDiaries]

/-- C7: list with sort field date, order asc yields non-decreasing date
values (lexicographic string comparison), order desc the reverse; the
comparison key substitutes createdAt for an absent (or falsy) sort field. -/
theorem listDiaries_sorted_spec :
    (∀ storage : DiaryStorage, (∀ e ∈ storage.diaries, e.date ≠ "") →
      (listDiaries storage
          (some ⟨none, some ⟨some .date, some .asc⟩, none⟩)).Pairwise
        (fun a b => a.date ≤ b.date) ∧
      (listDiaries storage
          (some ⟨none, some ⟨some .date, some .desc⟩, none⟩)).Pairwise
        (fun a b => b.date ≤ a.date)) ∧
    (∀ e : DiaryEntry, e.updatedAt = none → sortKey .updatedAt e = e.createdAt) ∧
    (∀ e : DiaryEntry, e.date = "" → sortKey .date e = e.createdAt) := by
  refine ⟨?_, sortKey_updatedAt_none, sortKey_date_blank⟩
  intro storage h
  constructor
  · rw [listDiaries_sort_only]
    refine List.Pairwise.imp_of_mem ?_ (sortEntries_asc_pairwise storage.diaries .date)
    intro a b ha hb hab
    rw [sortKey_date a (h a (mem_sortEntries.mp ha)),
      sortKey_date b (h b (mem_sortEntries.mp hb))] at hab
    exact hab
  · rw [listDiaries_sort_only]
    refine List.Pairwise.imp_of_mem ?_ (sortEntries_desc_pairwise storage.diaries .date)
    intro a b ha hb hab
    rw [sortKey_date a (h a (mem_sortEntries.mp ha)),
      sortKey_date b (h b (mem_sortEntries.mp hb))] at hab
    exact hab

/-- Witness for C7 at concrete inputs. -/
theorem listDiaries_sorted_spec_witness :
    (listDiaries sampleStorage2
        (some ⟨none, some ⟨some .date, some .asc⟩, none⟩)).Pairwise
      (fun a b => a.date ≤ b.date) ∧
    sortKey .updatedAt sampleEntry = sampleEntry.createdAt :=
  ⟨(listDiaries_sorted_spec.1 sampleStorage2 (by decide)).1,
    listDiaries_sorted_spec.2.1 sampleEntry rfl⟩

/-- C8 counterexample: with the sort option omitted entirely, listDiaries
returns the entries in stored order — here strictly increasing dates — so
no default date/desc sort is applied. -/
theorem listDiaries_no_sort_counterexample :
    listDiaries sampleStorage2 (some ⟨none, none, none⟩) =
      [sampleEntry, sampleEntry2] ∧
    ¬ ([sampleEntry, sampleEntry2].Pairwise
        (fun a b : DiaryEntry => b.date ≤ a.date)) := by
  constructor
  · rfl
  · intro hp
    have h1 : sampleEntry2.date ≤ sampleEntry.date :=
      (List.pairwise_cons.mp hp).1 sampleEntry2 (by simp)
    have h2 : ¬ sampleEntry2.date ≤ sampleEntry.date := by
      rw [String.le_iff_toList_le]
      decide
    exact h2 h1

/-- C8 (amended): when the sort option is omitted entirely no sorting is
applied and the entries come back in stored order; the defaults field=date,
order=desc apply only when a sort options object is present with those
subfields omitted, in which case the result is non-increasing in the date
key (and in the date values themselves when every date is non-empty). -/
theorem listDiaries_default_sort_spec :
    (∀ storage : DiaryStorage,
      listDiaries storage none = storage.diaries ∧
      listDiaries storage (some ⟨none, none, none⟩) = storage.diaries) ∧
    (∀ storage : DiaryStorage, (∀ e ∈ storage.diaries, e.date ≠ "") →
      (listDiaries storage (some ⟨none, some ⟨none, none⟩, none⟩)).Pairwise
        (fun a b => b.date ≤ a.date)) := by
  constructor
  · intro storage
    exact ⟨rfl, rfl⟩
  · intro storage h
    rw [listDiaries_sort_only]
    refine List.Pairwise.imp_of_mem ?_ (sortEntries_default_pairwise storage.diaries)
    intro a b ha hb hab
    rw [sortKey_date a (h a (mem_sortEntries.mp ha)),
      sortKey_date b (h b (mem_sortEntries.mp hb))] at hab
    exact hab

/-- Witness for the amended C8 at concrete inputs. -/
theorem listDiaries_default_sort_spec_witness :
    listDiaries sampleStorage2 none = [sampleEntry, sampleEntry2] ∧
    (listDiaries sampleStorage2 (some ⟨none, some ⟨none, none⟩, none⟩)).Pairwise
      (fun a b => b.date ≤ a.date) :=
  ⟨(listDiaries_default_sort_spec.1 sampleStorage2).1,
    listDiaries_default_sort_spec.2 sampleStorage2 (by decide)⟩

/-- Helper: the variation loop yields min(overrides, budget) variations. -/
theorem variationLoop_length (base : DiaryPromptOptions) :
    ∀ (vs : List PartialPromptOptions) (k i : Nat),
      (variationLoop base vs k i).length = min vs.length k := by
  intro vs
  induction vs with
  | nil => intro k i; cases k <;> simp [variationLoop]
  | cons v rest ih =>
    intro k i
    cases k with
    | zero => simp [variationLoop]
    | succ n => simp [variationLoop, ih, Nat.succ_min_succ]

/-- Helper: the j-th loop element is the j-th override merged over the base,
built and labelled variation-(startIndex + j + 1). -/
theorem variationLoop_getD (base : DiaryPromptOptions) :
    ∀ (vs : List PartialPromptOptions) (k i j : Nat), j < min vs.length k →
      (variationLoop base vs k i).getD j defaultVariation =
        ⟨promptBuild (resolveOptions (mergePromptOptions base
            (vs.getD j defaultPartialOptions))) standardTemplate,
          mergePromptOptions base (vs.getD j defaultPartialOptions),
          "variation-" ++ toString (i + j + 1)⟩ := by
  intro vs
  induction vs with
  | nil => intro k i j h; simp at h
  | cons v rest ih =>
    intro k i j h
    cases k with
    | zero => simp at h
    | succ n =>
      cases j with
      | zero => simp [variationLoop]
      | succ jj =>
        have hj : jj < min rest.length n := by
          simp only [List.length_cons, Nat.succ_min_succ] at h
          omega
        simp only [variationLoop, List.getD_cons_succ]
        rw [ih n (i + 1) jj hj]
        have harg : i + 1 + jj + 1 = i + (jj + 1) + 1 := by omega
        rw [harg]

/-- C9: generateVariations returns the base prompt first, labelled base,
then one prompt per override labelled variation-1, variation-2, …, each
built from that override shallow-merged over the base options, the
override-derived variations being capped at maxVariations (defaulting to
the override count when unset). -/
theorem generateVariations_spec :
    ∀ config : PromptExperimentConfig,
      (generateVariations config).variations.length =
        1 + min config.variations.length
          (config.maxVariations.getD config.variations.length) ∧
      (generateVariations config).variations.getD 0 defaultVariation =
        ⟨promptBuild (resolveOptions config.basePrompt) standardTemplate,
          config.basePrompt, "base"⟩ ∧
      ∀ j, j < min config.variations.length
          (config.maxVariations.getD config.variations.length) →
        (generateVariations config).variations.getD (j + 1) defaultVariation =
          ⟨promptBuild (resolveOptions (mergePromptOptions config.basePrompt
              (config.variations.getD j defaultPartialOptions))) standardTemplate,
            mergePromptOptions config.basePrompt
              (config.variations.getD j defaultPartialOptions),
            "variation-" ++ toString (j + 1)⟩ := by
  intro config
  refine ⟨?_, rfl, ?_⟩
  · simp only [generateVariations, List.length_cons, variationLoop_length]
    omega
  · intro j hj
    simp only [generateVariations, List.getD_cons_succ]
    rw [variationLoop_getD config.basePrompt config.variations _ 0 j (by omega)]
    simp

/-- Witness for C9 at concrete inputs. -/
theorem generateVariations_spec_witness :
    (generateVariations sampleExperiment).variations.length = 1 + 2 ∧
    (generateVariations sampleExperiment).variations.getD 1 defaultVariation =
      ⟨promptBuild (resolveOptions (mergePromptOptions sampleExperiment.basePrompt
          (sampleExperiment.variations.getD 0 defaultPartialOptions)))
          standardTemplate,
        mergePromptOptions sampleExperiment.basePrompt
          (sampleExperiment.variations.getD 0 defaultPartialOptions),
        "variation-" ++ toString (0 + 1)⟩ :=
  ⟨by
    have h := (generateVariations_spec sampleExperiment).1
    simpa using h,
    (generateVariations_spec sampleExperiment).2.2 0 (by decide)⟩

end EchoDialy
